import Mathlib

/-!
Shallow embedding of the menu-builder data model and its store operations
(`src/scripts/menuBuilder.js`, class `MenuBuilder`).

Modelling conventions:
* The four tables held on the `MenuBuilder` instance (`this.categories`,
  `this.products`, `this.modifiers`, `this.currentOptions`) form a `Store`.
* `Date.now()` is modelled by an explicit `now : Int` parameter supplied by
  the caller of an operation that creates records.
* JavaScript numbers are modelled by `Int` where the source applies
  `parseInt` (ids, min, max, type, position) and by `Rat` where it applies
  `parseFloat` (price, option value).  `NaN` is outside the model: inputs
  are taken after a successful numeric parse.
* A JSON field that may be `undefined`/`null` is an `Option`; the
  JavaScript defaulting idiom `x || d`, under which `undefined`, `null`,
  `0` and the empty string are all falsy, is `jsOrInt`/`jsOrRat`/`jsOrStr`.
* Each operation returns an `OpResult`: the new store plus the error toast
  it reported, if any (`showToast(msg, 'error')` in the source).  The DOM
  reads/writes, re-rendering and `localStorage` persistence around the
  table mutations carry no table state and are not modelled.
-/

namespace MenuBuilder

/-- JavaScript `String.prototype.trim()` over the character data:
whitespace is stripped from both ends. -/
def jsTrim (s : String) : String :=
  ⟨((s.data.dropWhile Char.isWhitespace).reverse.dropWhile Char.isWhitespace).reverse⟩

/-- JavaScript `String.prototype.toLowerCase()` (character-wise; enough for
the case-insensitive name comparisons of the source). -/
def jsLower (s : String) : String :=
  ⟨s.data.map Char.toLower⟩

/-- JavaScript `x || d` for a number read from a JSON document: `undefined`,
`null` and `0` are falsy and fall back to the default. -/
def jsOrInt (x : Option Int) (d : Int) : Int :=
  match x with
  | none => d
  | some v => if v = 0 then d else v

/-- JavaScript `x || d` for a decimal read from a JSON document. -/
def jsOrRat (x : Option Rat) (d : Rat) : Rat :=
  match x with
  | none => d
  | some v => if v = 0 then d else v

/-- JavaScript `x || d` for a string read from a JSON document: `undefined`,
`null` and the empty string fall back to the default. -/
def jsOrStr (x : Option String) (d : String) : String :=
  match x with
  | none => d
  | some v => if v = "" then d else v

/-- An option of a modifier: `{id, label, value}` as pushed by `addOption`
or reconstructed by `importJSON`. -/
structure MOpt where
  id : Int
  label : String
  value : Rat
deriving DecidableEq

/-- A modifier record: `{id, productId, name, min, max, type, position,
options}`.  `productId` is an `Option Int` because `importJSON` copies the
raw `product.id` field of the document, which may be absent. -/
structure Modifier where
  id : Int
  productId : Option Int
  name : String
  min : Int
  max : Int
  type : Int
  position : Int
  options : List MOpt
deriving DecidableEq

/-- A product record: `{id, categoryId, name, description, price, image}`.
`categoryId` is an `Option Int` because `importJSON` copies the raw
`category.id` field of the document, which may be absent. -/
structure Product where
  id : Int
  categoryId : Option Int
  name : String
  description : String
  price : Rat
  image : String
deriving DecidableEq

/-- A category record: `{id, name}`. -/
structure Category where
  id : Int
  name : String
deriving DecidableEq

/-- The in-memory state of the builder: the three entity tables plus the
draft option buffer `this.currentOptions`. -/
structure Store where
  categories : List Category
  products : List Product
  modifiers : List Modifier
  currentOptions : List MOpt
deriving DecidableEq

/-- The store with all four tables empty (the constructor's initial state). -/
def emptyStore : Store := ⟨[], [], [], []⟩

/-- An error reported through `showToast(msg, 'error')`.  The spec's
taxonomy maps the field/uniqueness rejections to ValidationError and
the import rejections to FormatError. -/
inductive MenuError where
  | validation : String → MenuError
  | format : String → MenuError
deriving DecidableEq

/-- Outcome of one store operation: the store afterwards and the error it
reported, if any. -/
structure OpResult where
  store : Store
  err : Option MenuError
deriving DecidableEq

/-- Whether an operation reported a ValidationError. -/
def isValidation : Option MenuError → Bool
  | some (.validation _) => true
  | _ => false

/-- `MenuBuilder.addCategory` (menuBuilder.js 163-187): trims the name,
rejects an empty name, rejects a case-insensitive duplicate, otherwise
pushes `{id: Date.now(), name}`. -/
def addCategory (now : Int) (rawName : String) (s : Store) : OpResult :=
  let name := jsTrim rawName
  if name = "" then
    ⟨s, some (.validation "Por favor ingresa un nombre para la categoría")⟩
  else if s.categories.any (fun c => jsLower c.name = jsLower name) then
    ⟨s, some (.validation "Ya existe una categoría con ese nombre")⟩
  else
    ⟨{ s with categories := s.categories ++ [⟨now, name⟩] }, none⟩

/-- `MenuBuilder.addProduct` (menuBuilder.js 373-422): rejects a falsy
categoryId, an empty name or description and a negative price, then pushes
the product.  The source performs no duplicate-name check and no check
that `categoryId` matches an existing category. -/
def addProduct (now : Int) (categoryId : Int) (rawName rawDescription : String)
    (price : Rat) (rawImage : String) (s : Store) : OpResult :=
  let name := jsTrim rawName
  let description := jsTrim rawDescription
  let image := jsTrim rawImage
  if categoryId = 0 then
    ⟨s, some (.validation "Por favor selecciona una categoría")⟩
  else if name = "" then
    ⟨s, some (.validation "Por favor ingresa un nombre para el producto")⟩
  else if description = "" then
    ⟨s, some (.validation "Por favor ingresa una descripción")⟩
  else if price < 0 then
    ⟨s, some (.validation "Por favor ingresa un precio válido")⟩
  else
    ⟨{ s with products :=
        s.products ++ [⟨now, some categoryId, name, description, price, image⟩] }, none⟩

/-- `MenuBuilder.deleteCategory` (menuBuilder.js 235-244): drops the
category by id, drops the products whose `categoryId` matches, then
filters the modifiers with the predicate
`mod => !this.products.some(prod => prod.id === mod.productId)` evaluated
against the already-filtered products. -/
def deleteCategory (id : Int) (s : Store) : OpResult :=
  let categories := s.categories.filter (fun c => c.id ≠ id)
  let products := s.products.filter (fun p => p.categoryId ≠ some id)
  let modifiers := s.modifiers.filter
    (fun m => ¬ products.any (fun p => some p.id = m.productId))
  ⟨⟨categories, products, modifiers, s.currentOptions⟩, none⟩

/-- `MenuBuilder.deleteProduct` (menuBuilder.js 490-497): drops the product
by id and every modifier whose `productId` matches it. -/
def deleteProduct (id : Int) (s : Store) : OpResult :=
  ⟨⟨s.categories,
    s.products.filter (fun p => p.id ≠ id),
    s.modifiers.filter (fun m => m.productId ≠ some id),
    s.currentOptions⟩, none⟩

/-- `MenuBuilder.addOption` (menuBuilder.js 659-683): rejects an empty
label, otherwise appends `{id: Date.now(), label, value}` to the draft
buffer (`value` is already defaulted to 0 by `parseFloat(...) || 0` at the
input boundary). -/
def addOption (now : Int) (rawLabel : String) (value : Rat) (s : Store) : OpResult :=
  let label := jsTrim rawLabel
  if label = "" then
    ⟨s, some (.validation "Por favor ingresa una etiqueta para la opción")⟩
  else
    ⟨{ s with currentOptions := s.currentOptions ++ [⟨now, label, value⟩] }, none⟩

/-- `MenuBuilder.removeOption` (menuBuilder.js 710-713): drops a draft
option by id. -/
def removeOption (id : Int) (s : Store) : OpResult :=
  ⟨{ s with currentOptions := s.currentOptions.filter (fun o => o.id ≠ id) }, none⟩

/-- `MenuBuilder.saveModifier` (menuBuilder.js 718-775): rejects a falsy
productId, an empty name, `min > max` and an empty draft buffer, in that
order; otherwise pushes the modifier with a snapshot of the buffer as its
options and clears the buffer.  The source does not check that `productId`
matches an existing product. -/
def saveModifier (now : Int) (productId : Int) (rawName : String)
    (mn mx ty pos : Int) (s : Store) : OpResult :=
  let name := jsTrim rawName
  if productId = 0 then
    ⟨s, some (.validation "Por favor selecciona un producto")⟩
  else if name = "" then
    ⟨s, some (.validation "Por favor ingresa un nombre para el modificador")⟩
  else if mn > mx then
    ⟨s, some (.validation "El mínimo no puede ser mayor que el máximo")⟩
  else if s.currentOptions = [] then
    ⟨s, some (.validation "Por favor agrega al menos una opción")⟩
  else
    ⟨⟨s.categories, s.products,
      s.modifiers ++ [⟨now, some productId, name, mn, mx, ty, pos, s.currentOptions⟩],
      []⟩, none⟩

/-- `MenuBuilder.deleteModifier` (menuBuilder.js 850-855): drops a modifier
by id. -/
def deleteModifier (id : Int) (s : Store) : OpResult :=
  ⟨{ s with modifiers := s.modifiers.filter (fun m => m.id ≠ id) }, none⟩

/-- `MenuBuilder.clearAllData` (menuBuilder.js 1137-1154), after the user
confirms: all four tables are emptied. -/
def clearAllData (_s : Store) : OpResult :=
  ⟨emptyStore, none⟩

/-! ### The export / import document

The JSON interchange document, field for field as `generateJSON` writes it
and `importJSON` reads it.  Every field the import may find absent is an
`Option`; a present JSON `null` and an absent key behave identically under
`x || d` and are both `none`. -/

/-- An option node of the document. -/
structure JOpt where
  id : Option Int
  label : String
  value : Option Rat
deriving DecidableEq

/-- A modifier node of the document. -/
structure JModifier where
  id : Option Int
  name : String
  min : Option Int
  max : Option Int
  type : Option Int
  position : Option Int
  options : Option (List JOpt)
deriving DecidableEq

/-- A product node of the document. -/
structure JProduct where
  id : Option Int
  name : String
  description : Option String
  price : Option Rat
  image : Option String
  modifiers : Option (List JModifier)
deriving DecidableEq

/-- A category node of the document. -/
structure JCategory where
  id : Option Int
  name : String
  products : Option (List JProduct)
deriving DecidableEq

/-- The metadata block of the export (`created` models the ISO timestamp). -/
structure ExpMeta where
  created : Int
  totalCategories : Nat
  totalProducts : Nat
  totalModifiers : Nat
deriving DecidableEq

/-- The export document `{menu, metadata}`. -/
structure ExportDoc where
  menu : List JCategory
  metadata : ExpMeta
deriving DecidableEq

/-- The modifiers of a product: `this.modifiers.filter(mod =>
mod.productId === product.id)`. -/
def productModifiers (s : Store) (p : Product) : List Modifier :=
  s.modifiers.filter (fun m => m.productId = some p.id)

/-- The products of a category: `this.products.filter(prod =>
prod.categoryId === category.id)`. -/
def categoryProducts (s : Store) (c : Category) : List Product :=
  s.products.filter (fun p => p.categoryId = some c.id)

/-- One exported option node (menuBuilder.js 1185-1189). -/
def expOption (o : MOpt) : JOpt :=
  ⟨some o.id, o.label, some o.value⟩

/-- One exported modifier node (menuBuilder.js 1178-1190). -/
def expModifier (m : Modifier) : JModifier :=
  ⟨some m.id, m.name, some m.min, some m.max, some m.type, some m.position,
   some (m.options.map expOption)⟩

/-- One exported product node (menuBuilder.js 1170-1191); the image is
written as `product.image || null`. -/
def expProduct (s : Store) (p : Product) : JProduct :=
  ⟨some p.id, p.name, some p.description, some p.price,
   (if p.image = "" then none else some p.image),
   some ((productModifiers s p).map expModifier)⟩

/-- One exported category node, or `null` for a category with no products
(menuBuilder.js 1162-1193): the `null`s are dropped by `.filter(Boolean)`. -/
def expCategory (s : Store) (c : Category) : Option JCategory :=
  if categoryProducts s c = [] then none
  else some ⟨some c.id, c.name, some ((categoryProducts s c).map (expProduct s))⟩

/-- `MenuBuilder.generateJSON` (menuBuilder.js 1161-1204): the nested menu
projection plus the metadata block of full table lengths. -/
def generateJSON (now : Int) (s : Store) : ExportDoc :=
  ⟨s.categories.filterMap (expCategory s),
   ⟨now, s.categories.length, s.products.length, s.modifiers.length⟩⟩

/-- Products nested anywhere in an export's menu array. -/
def menuProductCount (d : ExportDoc) : Nat :=
  (d.menu.map (fun c => (c.products.getD []).length)).sum

/-- Modifiers nested anywhere in an export's menu array. -/
def menuModifierCount (d : ExportDoc) : Nat :=
  (d.menu.map
    (fun c => ((c.products.getD []).map (fun p => (p.modifiers.getD []).length)).sum)).sum

/-! ### Import -/

/-- The text given to `importJSON` after `JSON.parse`: `invalid` covers the
empty input and unparseable text (both rejected before any mutation),
`noMenu` a parsed document whose top level has no `menu` array, and `doc`
a document with a `menu` array whose entries are objects (`some`) or
`null` (`none` - reading `.id` of `null` throws inside the loop). -/
inductive ImportText where
  | invalid : ImportText
  | noMenu : ImportText
  | doc : List (Option JCategory) → ImportText

/-- One imported option record (menuBuilder.js 1319-1323). -/
def importOption (now : Int) (o : JOpt) : MOpt :=
  ⟨jsOrInt o.id now, o.label, jsOrRat o.value 0⟩

/-- One imported modifier record (menuBuilder.js 1305-1326): `productId` is
the raw `product.id` field of the enclosing document node. -/
def importModifier (now : Int) (parentId : Option Int) (m : JModifier) : Modifier :=
  ⟨jsOrInt m.id now, parentId, m.name, jsOrInt m.min 0, jsOrInt m.max 1,
   jsOrInt m.type 1, jsOrInt m.position 1,
   (m.options.getD []).map (importOption now)⟩

/-- One imported product record with its modifiers (menuBuilder.js
1293-1329): `categoryId` is the raw `category.id` field of the enclosing
document node, and the modifiers carry the raw `product.id`. -/
def importProduct (now : Int) (parentId : Option Int) (p : JProduct) :
    Product × List Modifier :=
  (⟨jsOrInt p.id now, parentId, p.name, jsOrStr p.description "",
    jsOrRat p.price 0, jsOrStr p.image ""⟩,
   (p.modifiers.getD []).map (importModifier now p.id))

/-- One imported category with its products and their modifiers
(menuBuilder.js 1285-1331). -/
def importCategory (now : Int) (c : JCategory) :
    Category × List Product × List Modifier :=
  let pairs := (c.products.getD []).map (importProduct now c.id)
  (⟨jsOrInt c.id now, c.name⟩, pairs.map Prod.fst, pairs.flatMap Prod.snd)

/-- The accumulated effect of the `jsonData.menu.forEach` loop, plus
whether the loop threw (a `null` entry) before finishing. -/
structure ImportAcc where
  categories : List Category
  products : List Product
  modifiers : List Modifier
  threw : Bool
deriving DecidableEq

/-- Runs the import loop over the menu array.  A `null` entry throws a
TypeError at `category.id`; the records pushed for earlier entries stay in
the tables and the exception is caught by the surrounding `try`. -/
def importMenu (now : Int) : List (Option JCategory) → ImportAcc
  | [] => ⟨[], [], [], false⟩
  | none :: _ => ⟨[], [], [], true⟩
  | some c :: rest =>
    let r := importCategory now c
    let acc := importMenu now rest
    ⟨r.1 :: acc.categories, r.2.1 ++ acc.products, r.2.2 ++ acc.modifiers, acc.threw⟩

/-- `MenuBuilder.importJSON` (menuBuilder.js 1262-1351): unparseable text
and a missing `menu` array are rejected before any mutation; otherwise the
three tables are cleared and repopulated from the document, and an
exception thrown mid-loop is caught with the partial repopulation left in
place.  The draft buffer is never touched. -/
def importJSON (now : Int) (t : ImportText) (s : Store) : OpResult :=
  match t with
  | .invalid => ⟨s, some (.format "Error al importar: JSON inválido")⟩
  | .noMenu => ⟨s, some (.format "El formato del JSON no es válido")⟩
  | .doc menu =>
    let acc := importMenu now menu
    ⟨⟨acc.categories, acc.products, acc.modifiers, s.currentOptions⟩,
     if acc.threw then some (.format "Error al importar: JSON inválido") else none⟩

/-- Referential integrity of the three tables: every product references a
category in the table, every modifier a product in the table. -/
def refIntegrity (s : Store) : Bool :=
  s.products.all (fun p => s.categories.any (fun c => p.categoryId = some c.id)) &&
  s.modifiers.all (fun m => s.products.any (fun p => m.productId = some p.id))

/-! ### Concrete states used by the claim theorems -/

/-- Two categories, each holding one product that carries one modifier. -/
def storeTwoCats : Store :=
  ⟨[⟨1, "Comidas"⟩, ⟨10, "Bebidas"⟩],
   [⟨2, some 1, "Taco", "Con carne", 3, ""⟩, ⟨20, some 10, "Cola", "Fría", 2, ""⟩],
   [⟨3, some 2, "Salsa", 0, 1, 1, 1, [⟨4, "Suave", 0⟩]⟩,
    ⟨30, some 20, "Hielo", 0, 1, 1, 1, [⟨40, "Poco", 0⟩]⟩],
   []⟩

/-- One category with one product carrying one modifier. -/
def storeOneChain : Store :=
  ⟨[⟨1, "A"⟩], [⟨2, some 1, "P", "D", 1, ""⟩],
   [⟨3, some 2, "M", 0, 1, 1, 1, [⟨4, "O", 0⟩]⟩], []⟩

/-- One category and nothing else. -/
def storeOneCat : Store := ⟨[⟨1, "A"⟩], [], [], []⟩

/-- One category holding one product. -/
def storeDrinks : Store :=
  ⟨[⟨1, "Drinks"⟩], [⟨2, some 1, "Cola", "Cold soda", 3, ""⟩], [], []⟩

/-- An empty category, a product whose category is missing, a modifier
whose product is missing. -/
def storeLoose : Store :=
  ⟨[⟨1, "Vacía"⟩], [⟨2, some 9, "Huérfano", "D", 1, ""⟩],
   [⟨3, some 8, "M", 0, 1, 1, 1, []⟩], []⟩

/-- An import document whose single category has no `id` of its own but
holds one product. -/
def docNoCatId : ImportText :=
  .doc [some ⟨none, "Food", some [⟨some 2, "Taco", none, none, none, none⟩]⟩]

/-! ### Claim theorems -/

/-- Claim C1: run `deleteCategory 1` on `storeTwoCats` (category 1 holds
Taco with modifier Salsa, category 10 holds Cola with modifier Hielo).
The claim asks for exactly Salsa to be removed along with Taco; the code
instead keeps the orphaned Salsa and deletes Hielo, the modifier of the
untouched product Cola, because its modifier filter negates the
surviving-product test. -/
theorem deleteCategory_cascade_inverted :
    (deleteCategory 1 storeTwoCats).store.categories = [⟨10, "Bebidas"⟩] ∧
    (deleteCategory 1 storeTwoCats).store.products
      = [⟨20, some 10, "Cola", "Fría", 2, ""⟩] ∧
    (deleteCategory 1 storeTwoCats).store.modifiers.map Modifier.id = [3] := by
  decide

/-- Claim C2: referential integrity is not preserved.  `deleteCategory`
leaves a modifier pointing at the deleted product, and `addProduct`
accepts a `categoryId` that matches no category, both without reporting
any error. -/
theorem refIntegrity_not_preserved :
    refIntegrity storeOneChain = true ∧
    (deleteCategory 1 storeOneChain).err = none ∧
    refIntegrity (deleteCategory 1 storeOneChain).store = false ∧
    (addProduct 5 7 "Nuevo" "Desc" 1 "" emptyStore).err = none ∧
    refIntegrity (addProduct 5 7 "Nuevo" "Desc" 1 "" emptyStore).store = false := by
  decide

/-- Claim C4: a menu array holding a `null` entry is reported as an import
error, but only after the tables were cleared: the category table that
held one record before the call is empty afterwards. -/
theorem importJSON_error_after_partial_mutation :
    (importJSON 9 (.doc [none]) storeOneCat).err
      = some (.format "Error al importar: JSON inválido") ∧
    (importJSON 9 (.doc [none]) storeOneCat).store.categories = [] ∧
    storeOneCat.categories ≠ [] := by
  decide

/-- Claim C5: adding "cola" to the category that already holds "Cola"
succeeds and appends the product; `addProduct` performs no duplicate-name
check at all. -/
theorem addProduct_accepts_duplicate_name :
    (addProduct 99 1 "cola" "Otra cola" 1 "" storeDrinks).err = none ∧
    (addProduct 99 1 "cola" "Otra cola" 1 "" storeDrinks).store.products.map Product.name
      = ["Cola", "cola"] := by
  decide

/-- Claim C6: importing a category without an `id` generates a fresh id for
the Category record (777 here), but the Product record produced from its
`products` array keeps the raw absent input id as its `categoryId`, so the
two do not match. -/
theorem importJSON_categoryId_not_linked :
    (importJSON 777 docNoCatId emptyStore).store.categories.map Category.id = [777] ∧
    (importJSON 777 docNoCatId emptyStore).store.products.map Product.categoryId
      = [none] ∧
    (importJSON 777 docNoCatId emptyStore).err = none := by
  decide

/-- Claim C7: with an empty draft option buffer, `saveModifier` reports a
ValidationError for every input and leaves the modifiers table unchanged:
each of its four checks returns before the push, and the option-count
check catches every input that passes the first three. -/
theorem saveModifier_empty_buffer_rejected (now productId : Int) (rawName : String)
    (mn mx ty pos : Int) (s : Store) (h : s.currentOptions = []) :
    isValidation (saveModifier now productId rawName mn mx ty pos s).err = true ∧
    (saveModifier now productId rawName mn mx ty pos s).store.modifiers
      = s.modifiers := by
  unfold saveModifier
  split_ifs <;> simp_all [isValidation]
  all_goals split_ifs <;> simp_all [isValidation]

/-- Claim C7, the theorem applied at a concrete input: the empty store's
buffer is empty and an otherwise valid call is rejected. -/
theorem saveModifier_empty_buffer_rejected_case :
    isValidation (saveModifier 1 2 "Salsas" 0 1 1 1 emptyStore).err = true ∧
    (saveModifier 1 2 "Salsas" 0 1 1 1 emptyStore).store.modifiers
      = emptyStore.modifiers :=
  saveModifier_empty_buffer_rejected 1 2 "Salsas" 0 1 1 1 emptyStore rfl

/-- Claim C8: whenever `min > max`, `saveModifier` reports a
ValidationError and pushes nothing, whatever the type and position values
are: the `min > max` check precedes the push, and the two checks before it
also return without pushing. -/
theorem saveModifier_min_gt_max_rejected (now productId : Int) (rawName : String)
    (mn mx ty pos : Int) (s : Store) (h : mn > mx) :
    isValidation (saveModifier now productId rawName mn mx ty pos s).err = true ∧
    (saveModifier now productId rawName mn mx ty pos s).store.modifiers
      = s.modifiers := by
  unfold saveModifier
  split_ifs <;> simp_all [isValidation]
  all_goals split_ifs <;> simp_all [isValidation]

/-- Claim C8, the theorem applied at a concrete input with `min = 3` and
`max = 1`. -/
theorem saveModifier_min_gt_max_rejected_case :
    isValidation (saveModifier 5 2 "Queso" 3 1 1 1 emptyStore).err = true ∧
    (saveModifier 5 2 "Queso" 3 1 1 1 emptyStore).store.modifiers
      = emptyStore.modifiers :=
  saveModifier_min_gt_max_rejected 5 2 "Queso" 3 1 1 1 emptyStore (by decide)

/-- Claim C10: the metadata block always reports the full lengths of the
three tables, and on `storeLoose` (an empty category, a product with a
missing category, a modifier with a missing product) each total strictly
exceeds what the menu array nests. -/
theorem generateJSON_metadata_full_lengths :
    (∀ (now : Int) (s : Store),
      (generateJSON now s).metadata.totalCategories = s.categories.length ∧
      (generateJSON now s).metadata.totalProducts = s.products.length ∧
      (generateJSON now s).metadata.totalModifiers = s.modifiers.length) ∧
    (generateJSON 0 storeLoose).menu.length < storeLoose.categories.length ∧
    menuProductCount (generateJSON 0 storeLoose) < storeLoose.products.length ∧
    menuModifierCount (generateJSON 0 storeLoose) < storeLoose.modifiers.length := by
  refine ⟨fun now s => ⟨rfl, rfl, rfl⟩, ?_, ?_, ?_⟩ <;> decide

/-- The menu array written by `generateJSON`: the `map`-then-`filter(Boolean)`
of the source equals filtering the categories that have products and
rendering each. -/
lemma filterMap_expCategory (s : Store) (cs : List Category) :
    cs.filterMap (expCategory s)
      = (cs.filter (fun c => categoryProducts s c ≠ [])).map
          (fun c => ⟨some c.id, c.name, some ((categoryProducts s c).map (expProduct s))⟩) := by
  induction cs with
  | nil => rfl
  | cons c cs ih =>
    by_cases h : categoryProducts s c = []
    · simp [List.filterMap_cons, List.filter_cons, expCategory, h, ih]
    · simp [List.filterMap_cons, List.filter_cons, expCategory, h, ih]

/-- Claim C9: the export's menu holds exactly one entry per category with
at least one product, in categories-table order, each nesting that
category's products (with their matching modifiers and options, rendered
by `expProduct`); and every menu entry arises from such a category, so a
category with zero products appears nowhere in the export. -/
theorem generateJSON_menu_entries (now : Int) (s : Store) :
    ((generateJSON now s).menu
      = (s.categories.filter (fun c => categoryProducts s c ≠ [])).map
          (fun c => ⟨some c.id, c.name, some ((categoryProducts s c).map (expProduct s))⟩)) ∧
    (∀ e ∈ (generateJSON now s).menu, ∃ c ∈ s.categories,
      categoryProducts s c ≠ [] ∧
      e = ⟨some c.id, c.name, some ((categoryProducts s c).map (expProduct s))⟩) := by
  constructor
  · exact filterMap_expCategory s s.categories
  · intro e he
    obtain ⟨c, hc, hce⟩ := List.mem_filterMap.1 he
    refine ⟨c, hc, ?_, ?_⟩
    · intro h
      simp [expCategory, h] at hce
    · by_cases h : categoryProducts s c = []
      · simp [expCategory, h] at hce
      · simp [expCategory, h] at hce
        exact hce.symm

/-! ### The export → import round trip (claim C3) -/

/-- One category with one product carrying a `max = 0` modifier: the
defaulting `modifier.max || 1` of the import rewrites this field. -/
def storeMaxZero : Store :=
  ⟨[⟨1, "Cat"⟩], [⟨2, some 1, "Prod", "Desc", 1, ""⟩],
   [⟨3, some 2, "Mod", 0, 0, 1, 1, [⟨4, "Opt", 0⟩]⟩], []⟩

/-- A round-trip friendly store: one category, one product, one modifier,
all ids nonzero and the modifier's max, type and position nonzero. -/
def storeRound : Store :=
  ⟨[⟨1, "Drinks"⟩], [⟨2, some 1, "Cola", "Cold soda", 3, ""⟩],
   [⟨5, some 2, "Size", 0, 2, 1, 1, [⟨6, "Big", 1⟩]⟩], []⟩

lemma map_eq_self_of_mem {α : Type} {l : List α} {f : α → α}
    (h : ∀ a ∈ l, f a = a) : l.map f = l := by
  induction l with
  | nil => rfl
  | cons a l ih => simp [h a (List.mem_cons_self a l), ih fun a ha => h a (List.mem_cons_of_mem _ ha)]

lemma flatMap_map {α β γ : Type} (f : α → β) (g : β → List γ) (l : List α) :
    (l.map f).flatMap g = l.flatMap (fun a => g (f a)) := by
  induction l <;> simp_all

lemma jsOrInt_some_of_ne (d v : Int) (h : v ≠ 0) : jsOrInt (some v) d = v := by
  simp [jsOrInt, h]

lemma jsOrInt_some_zero_default (v : Int) : jsOrInt (some v) 0 = v := by
  by_cases h : v = 0 <;> simp [jsOrInt, h]

lemma jsOrRat_some_zero_default (v : Rat) : jsOrRat (some v) 0 = v := by
  by_cases h : v = 0 <;> simp [jsOrRat, h]

lemma jsOrStr_some_empty_default (v : String) : jsOrStr (some v) "" = v := by
  by_cases h : v = "" <;> simp [jsOrStr, h]

lemma jsOrStr_image_null (v : String) :
    jsOrStr (if v = "" then none else some v) "" = v := by
  by_cases h : v = "" <;> simp [jsOrStr, h]

/-- Re-importing an exported option reproduces it when its id is nonzero. -/
lemma importOption_expOption (now : Int) (o : MOpt) (h : o.id ≠ 0) :
    importOption now (expOption o) = o := by
  simp [importOption, expOption, jsOrInt_some_of_ne _ _ h, jsOrRat_some_zero_default]

/-- Re-importing an exported modifier reproduces it when it points at
`pid`, its ids are nonzero and its max, type and position are nonzero. -/
lemma importModifier_expModifier (now : Int) (pid : Int) (m : Modifier)
    (hpid : m.productId = some pid) (hid : m.id ≠ 0) (hmax : m.max ≠ 0)
    (hty : m.type ≠ 0) (hpos : m.position ≠ 0)
    (hoid : ∀ o ∈ m.options, o.id ≠ 0) :
    importModifier now (some pid) (expModifier m) = m := by
  have hopts : m.options.map (fun o => importOption now (expOption o)) = m.options :=
    map_eq_self_of_mem fun o ho => importOption_expOption now o (hoid o ho)
  have hopts' : m.options.map (importOption now ∘ expOption) = m.options := hopts
  simp [importModifier, expModifier, List.map_map, jsOrInt_some_of_ne _ _ hid,
    jsOrInt_some_zero_default, jsOrInt_some_of_ne _ _ hmax, jsOrInt_some_of_ne _ _ hty,
    jsOrInt_some_of_ne _ _ hpos, hopts, hopts', ← hpid]

/-- Re-importing an exported product reproduces it, together with its
modifier table slice, under the id side conditions. -/
lemma importProduct_expProduct (s : Store) (now : Int) (cid : Int) (p : Product)
    (hcid : p.categoryId = some cid) (hid : p.id ≠ 0)
    (hmod : ∀ m ∈ productModifiers s p, m.id ≠ 0 ∧ m.max ≠ 0 ∧ m.type ≠ 0 ∧ m.position ≠ 0)
    (hoid : ∀ m ∈ productModifiers s p, ∀ o ∈ m.options, o.id ≠ 0) :
    importProduct now (some cid) (expProduct s p) = (p, productModifiers s p) := by
  have hmods : (productModifiers s p).map
      (fun m => importModifier now (some p.id) (expModifier m)) = productModifiers s p := by
    refine map_eq_self_of_mem fun m hm => ?_
    have hmem : m.productId = some p.id := by
      have := List.mem_filter.1 hm
      simpa using this.2
    obtain ⟨h1, h2, h3, h4⟩ := hmod m hm
    exact importModifier_expModifier now p.id m hmem h1 h2 h3 h4 (hoid m hm)
  have hmods' : (productModifiers s p).map (importModifier now (some p.id) ∘ expModifier)
      = productModifiers s p := hmods
  simp [importProduct, expProduct, List.map_map, jsOrInt_some_of_ne _ _ hid,
    jsOrStr_some_empty_default, jsOrRat_some_zero_default, jsOrStr_image_null,
    hmods, hmods', ← hcid]

/-- Re-importing an exported non-empty category node reproduces the
category with its product and modifier slices. -/
lemma importCategory_expCategory (s : Store) (now : Int) (c : Category)
    (hcid : c.id ≠ 0)
    (hpid : ∀ p ∈ s.products, p.id ≠ 0)
    (hmod : ∀ m ∈ s.modifiers, m.id ≠ 0 ∧ m.max ≠ 0 ∧ m.type ≠ 0 ∧ m.position ≠ 0)
    (hoid : ∀ m ∈ s.modifiers, ∀ o ∈ m.options, o.id ≠ 0) :
    importCategory now ⟨some c.id, c.name, some ((categoryProducts s c).map (expProduct s))⟩
      = (c, categoryProducts s c, (categoryProducts s c).flatMap (productModifiers s)) := by
  have hpairs : (categoryProducts s c).map
      (fun p => importProduct now (some c.id) (expProduct s p))
      = (categoryProducts s c).map (fun p => (p, productModifiers s p)) := by
    refine List.map_congr_left fun p hp => ?_
    have hmem : p.categoryId = some c.id := by
      have := List.mem_filter.1 hp
      simpa using this.2
    have hps : p ∈ s.products := List.mem_of_mem_filter hp
    refine importProduct_expProduct s now c.id p hmem (hpid p hps) ?_ ?_
    · exact fun m hm => hmod m (List.mem_of_mem_filter hm)
    · exact fun m hm => hoid m (List.mem_of_mem_filter hm)
  have hpairs' : (categoryProducts s c).map (importProduct now (some c.id) ∘ expProduct s)
      = (categoryProducts s c).map (fun p => (p, productModifiers s p)) := hpairs
  have hfst : List.map (Prod.fst ∘ fun p : Product => (p, productModifiers s p))
      (categoryProducts s c) = categoryProducts s c := by
    rw [show (Prod.fst ∘ fun p : Product => (p, productModifiers s p)) = id from rfl,
      List.map_id]
  simp [importCategory, List.map_map, hpairs, hpairs', flatMap_map,
    jsOrInt_some_of_ne _ _ hcid, Function.comp, hfst]

/-- Running the import loop over the export of categories that all have
products rebuilds the categories in order with the grouped product and
modifier slices, and the loop does not throw. -/
lemma importMenu_export (s : Store) (now : Int) (cs : List Category)
    (hne : ∀ c ∈ cs, categoryProducts s c ≠ [])
    (hcid : ∀ c ∈ cs, c.id ≠ 0)
    (hpid : ∀ p ∈ s.products, p.id ≠ 0)
    (hmod : ∀ m ∈ s.modifiers, m.id ≠ 0 ∧ m.max ≠ 0 ∧ m.type ≠ 0 ∧ m.position ≠ 0)
    (hoid : ∀ m ∈ s.modifiers, ∀ o ∈ m.options, o.id ≠ 0) :
    importMenu now ((cs.filterMap (expCategory s)).map some)
      = ⟨cs, cs.flatMap (categoryProducts s),
          cs.flatMap (fun c => (categoryProducts s c).flatMap (productModifiers s)),
          false⟩ := by
  induction cs with
  | nil => rfl
  | cons c cs ih =>
    have hc : expCategory s c
        = some ⟨some c.id, c.name, some ((categoryProducts s c).map (expProduct s))⟩ := by
      simp [expCategory, hne c (List.mem_cons_self c cs)]
    have hrest := ih (fun a ha => hne a (List.mem_cons_of_mem _ ha))
      (fun a ha => hcid a (List.mem_cons_of_mem _ ha))
    simp only [List.filterMap_cons, hc, List.map_cons, importMenu, hrest,
      importCategory_expCategory s now c (hcid c (List.mem_cons_self c cs)) hpid hmod hoid,
      List.flatMap_cons]

/-- Two categories whose products interleave in the products table. -/
def storeInterleaved : Store :=
  ⟨[⟨1, "A"⟩, ⟨2, "B"⟩],
   [⟨3, some 1, "P1", "D", 1, ""⟩, ⟨4, some 2, "P2", "D", 1, ""⟩,
    ⟨5, some 1, "P3", "D", 1, ""⟩],
   [], []⟩

/-- Claim C3 counterexample: the round trip does not reproduce every store
whose categories all have products.  On `storeMaxZero` the import default
`modifier.max || 1` turns the exported `max = 0` into 1, and on
`storeInterleaved` the products come back regrouped by category
([3,5,4] instead of [3,4,5]), so neither field values nor order are
preserved in general. -/
theorem roundTrip_fails_as_stated :
    ((importJSON 999 (.doc ((generateJSON 0 storeMaxZero).menu.map some))
        storeMaxZero).store.modifiers.map Modifier.max = [1]) ∧
    storeMaxZero.modifiers.map Modifier.max = [0] ∧
    ((importJSON 999 (.doc ((generateJSON 0 storeInterleaved).menu.map some))
        storeInterleaved).store.products.map Product.id = [3, 5, 4]) ∧
    storeInterleaved.products.map Product.id = [3, 4, 5] := by
  decide

/-- Claim C3 as amended: when every category has at least one product,
every record id is nonzero, every modifier's max, type and position are
nonzero, the products table is grouped by category in table order and the
modifiers table is grouped by product within that order, importing the
serialized export reproduces the store exactly and reports no error. -/
theorem exportImport_roundTrip (now0 now1 : Int) (s : Store)
    (hne : ∀ c ∈ s.categories, categoryProducts s c ≠ [])
    (hcid : ∀ c ∈ s.categories, c.id ≠ 0)
    (hpid : ∀ p ∈ s.products, p.id ≠ 0)
    (hmod : ∀ m ∈ s.modifiers, m.id ≠ 0 ∧ m.max ≠ 0 ∧ m.type ≠ 0 ∧ m.position ≠ 0)
    (hoid : ∀ m ∈ s.modifiers, ∀ o ∈ m.options, o.id ≠ 0)
    (hgroupP : s.products = s.categories.flatMap (categoryProducts s))
    (hgroupM : s.modifiers
      = s.categories.flatMap (fun c => (categoryProducts s c).flatMap (productModifiers s))) :
    importJSON now1 (.doc ((generateJSON now0 s).menu.map some)) s = ⟨s, none⟩ := by
  have h := importMenu_export s now1 s.categories hne hcid hpid hmod hoid
  simp only [importJSON, generateJSON, h]
  rw [← hgroupP, ← hgroupM]
  rfl

/-- Claim C3, the amended theorem applied to the concrete `storeRound`. -/
theorem exportImport_roundTrip_case :
    importJSON 50 (.doc ((generateJSON 7 storeRound).menu.map some)) storeRound
      = ⟨storeRound, none⟩ :=
  exportImport_roundTrip 7 50 storeRound (by decide) (by decide) (by decide)
    (by decide) (by decide) (by decide) (by decide)

end MenuBuilder
